import Mathlib

/-!
Shallow embedding of the kid-story-gen client scripts.

The repository ships two independent page-turn implementations plus a
flipbook widget bootstrap:

* `Book` models the DOM book script (src/unnamed/part_000): module state
  `currentPage`, `totalPages`, `isAnimating`, handlers `goToNextPage` and
  `goToPreviousPage`, and the 600 ms `setTimeout` commit callbacks.
* `Viewer` models the main viewer script (src/unnamed/part_001): state
  `currentStory`, `currentPageIndex`, `isReadingAloud`, the speech queue of
  `window.speechSynthesis`, the 50 ms page-commit callbacks, the scheduled
  `readCurrentPage` timers, the error banner, and `handleGenerateStory`.
  It also models the `readCurrentPage` override installed by
  src/unnamed/part_003.
* `Flip` models the react-pageflip component (src/unnamed/part_002), in
  particular its `addStoryPages` method.

Deferred work (`setTimeout` callbacks, utterance completion) is modelled by
explicit pending counters or lists on the state, with one `fire...` function
per kind of callback; running a `fire...` function is delivery of that
callback on the single JS event loop. A JavaScript function that can throw a
`TypeError` or `ReferenceError` is modelled with result type `JsResult`,
whose `threw` flag records that the call ended in an uncaught exception; the
`state` field holds the mutations applied before the throw, since an
exception does not roll back prior assignments.
-/

/-- Result of running one JavaScript event handler: the state after the call
and whether the call ended in an uncaught exception. -/
structure JsResult (σ : Type) where
  state : σ
  threw : Bool
deriving DecidableEq

namespace Book

/-- Direction of a pending 600 ms `setTimeout` commit callback in the DOM
book script (part_000 lines 105-109 and 122-128). -/
inductive Turn
  | next
  | prev
deriving DecidableEq

/-- The module-level state of part_000: `currentPage`, `totalPages`,
`isAnimating`, plus the list of scheduled 600 ms commit callbacks (in
scheduling order; the script never cancels them). -/
structure State where
  currentPage : Int
  totalPages : Int
  isAnimating : Bool
  pending : List Turn
deriving DecidableEq

/-- The fixed animation duration passed to `setTimeout` by part_000
(lines 109 and 128): 600 ms, matching the CSS transition duration. -/
def animationMs : Nat := 600

/-- part_000 lines 113-129. Guard: `isAnimating || currentPage >= totalPages - 1`
returns early. Otherwise the script sets `isAnimating = true`, queries
`.page[data-page=currentPage]` and calls `classList.add` on it with no null
check: if the element is missing (`dom` returns `false`) that access throws a
TypeError after `isAnimating` was already set and before any timer is
scheduled. If the element is found, a 600 ms commit is scheduled; the index
increment happens only inside that callback. -/
def goToNextPage (dom : Int → Bool) (s : State) : JsResult State :=
  if s.isAnimating = true ∨ s.totalPages - 1 ≤ s.currentPage then
    ⟨s, false⟩
  else if dom s.currentPage then
    ⟨{ s with isAnimating := true, pending := s.pending ++ [Turn.next] }, false⟩
  else
    ⟨{ s with isAnimating := true }, true⟩

/-- part_000 lines 95-110. Guard: `isAnimating || currentPage <= 0` returns
early. Otherwise the script sets `isAnimating = true` and decrements
`currentPage` synchronously, then queries `.page[data-page=currentPage]`
(the decremented value) and calls `classList.add` on it with no null check:
a missing element throws after the decrement. If found, a 600 ms callback is
scheduled which only clears classes and `isAnimating`. -/
def goToPreviousPage (dom : Int → Bool) (s : State) : JsResult State :=
  if s.isAnimating = true ∨ s.currentPage ≤ 0 then
    ⟨s, false⟩
  else if dom (s.currentPage - 1) then
    ⟨{ s with isAnimating := true, currentPage := s.currentPage - 1,
              pending := s.pending ++ [Turn.prev] }, false⟩
  else
    ⟨{ s with isAnimating := true, currentPage := s.currentPage - 1 }, true⟩

/-- Delivery of the oldest scheduled 600 ms commit callback. The `next`
callback (part_000 lines 122-128) increments `currentPage`, clears
`isAnimating` and runs `updatePageState` (derived UI only). The `prev`
callback (lines 105-109) clears classes and `isAnimating` and runs
`updatePageState`; the index was already decremented at request time. -/
def fireTimer (s : State) : State :=
  match s.pending with
  | [] => s
  | Turn.next :: rest =>
      { s with currentPage := s.currentPage + 1, isAnimating := false, pending := rest }
  | Turn.prev :: rest =>
      { s with isAnimating := false, pending := rest }

/-- The discrete events the part_000 book reacts to: a next request, a
previous request (click, arrow key or swipe), or delivery of the oldest
pending animation timer. -/
inductive Ev
  | reqNext
  | reqPrev
  | fire
deriving DecidableEq

/-- One event step of the part_000 book. Throws leave their partial state
behind (the page keeps running after an uncaught handler exception). -/
def step (dom : Int → Bool) (s : State) (e : Ev) : State :=
  match e with
  | Ev.reqNext => (goToNextPage dom s).state
  | Ev.reqPrev => (goToPreviousPage dom s).state
  | Ev.fire => fireTimer s

/-- Run a sequence of events against the part_000 book. -/
def run (dom : Int → Bool) (s : State) (evs : List Ev) : State :=
  evs.foldl (step dom) s

/-- The state right after a story is loaded in part_000
(`currentPage = 0; initializeBook()`), with `totalPages` page elements. -/
def init (totalPages : Int) : State :=
  ⟨0, totalPages, false, []⟩

/-- A page of the story payload consumed by part_000 `populateBook`
(fields `text` and `image`). -/
structure SPage where
  text : String
  image : String
deriving DecidableEq

/-- The story payload consumed by part_000 `populateBook`
(fields `title`, `ageRange`, `pages`). -/
structure SData where
  title : String
  ageRange : String
  pages : List SPage
deriving DecidableEq

/-- A DOM page element built by part_000 `populateBook`. -/
inductive DomPage
  | frontCover (title image ageRange : String)
  | story (text image : String)
  | backCover
deriving DecidableEq

/-- part_000 lines 251-319. The front cover markup reads `pages[0].image`
unconditionally; on an empty `pages` array that indexing yields `undefined`
and the `.image` access throws (`none` here). Otherwise one cover element
(`data-page` 0), one element per story page (`data-page` i+1) and a back
cover (`data-page` length+1) are appended. -/
def populateBook (storyData : SData) : Option (List (Nat × DomPage)) :=
  match storyData.pages with
  | [] => none
  | p0 :: _ =>
      let cover := (0, DomPage.frontCover storyData.title p0.image storyData.ageRange)
      let body := storyData.pages.enum.map fun ip =>
        (ip.1 + 1, DomPage.story ip.2.text ip.2.image)
      some (cover :: body ++ [(storyData.pages.length + 1, DomPage.backCover)])

/-- Inductive invariant of the part_000 book: the index stays inside
`[0, totalPages - 1]`, no timer is pending while idle, at most one timer is
ever pending, and a pending next-commit has room to increment. -/
def inv (s : State) : Prop :=
  0 ≤ s.currentPage ∧
  s.currentPage ≤ s.totalPages - 1 ∧
  (s.isAnimating = false → s.pending = []) ∧
  s.pending.length ≤ 1 ∧
  (Turn.next ∈ s.pending → s.currentPage ≤ s.totalPages - 2)

end Book

namespace Viewer

/-- One page of the `/generate` response consumed by part_001
(fields `text` and `image_url`). -/
structure Page where
  text : String
  imageUrl : String
deriving DecidableEq

/-- The `/generate` response consumed by part_001
(fields `title`, `age_range`, `pages`). -/
structure Story where
  title : String
  ageRange : String
  pages : List Page
deriving DecidableEq

/-- A `SpeechSynthesisUtterance` queued on `window.speechSynthesis`:
the page index it was built for and the text handed to the constructor. -/
structure Utterance where
  pageIndex : Int
  text : String
deriving DecidableEq

/-- The module-level state of part_001 plus the JS environment it drives:
`currentStory`, `currentPageIndex`, `isReadingAloud`, the loading and error
banner UI, the utterance queue of `window.speechSynthesis`, and one pending
counter per kind of `setTimeout` callback the script schedules
(page commits, deferred `readCurrentPage` calls, error auto-hides, and the
auto-advance callbacks created in the utterance `onend` handlers). -/
structure State where
  currentStory : Option Story
  currentPageIndex : Int
  isReadingAloud : Bool
  loading : Bool
  errorVisible : Bool
  errorText : String
  pendingErrorHides : Nat
  pendingNextCommits : Nat
  pendingReads : Nat
  pendingAutoAdvances : Nat
  speechQueue : List Utterance
  coverImageUrl : Option String
deriving DecidableEq

/-- part_001 lines 433-444: clears `isReadingAloud`, updates the button UI,
and calls `speechSynthesis.cancel()`, which empties the utterance queue.
It does not cancel any pending `setTimeout` callback. -/
def stopReading (s : State) : State :=
  { s with isReadingAloud := false, speechQueue := [] }

/-- part_001 lines 416-431: sets `isReadingAloud` and schedules a
`readCurrentPage` call 500 ms later. -/
def startReading (s : State) : State :=
  { s with isReadingAloud := true, pendingReads := s.pendingReads + 1 }

/-- part_001 lines 406-414. -/
def toggleReadAloud (s : State) : State :=
  if s.isReadingAloud = true then stopReading s else startReading s

/-- part_001 lines 334-365. Guard `currentPageIndex > 0`; inside it the
script stops narration if active, decrements the index synchronously, does a
null-checked visual unflip (no state effect either way), and calls
`updateNavigationButtons`, which reads `currentStory.pages.length` and so
throws on a null story. The final `if (isReadingAloud)` restart check runs
after `stopReading` already cleared the flag. -/
def goToPreviousPage (s : State) : JsResult State :=
  if 0 < s.currentPageIndex then
    let s1 := if s.isReadingAloud = true then stopReading s else s
    let s2 := { s1 with currentPageIndex := s1.currentPageIndex - 1 }
    match s2.currentStory with
    | none => ⟨s2, true⟩
    | some _ =>
        if s2.isReadingAloud = true then
          ⟨{ s2 with pendingReads := s2.pendingReads + 1 }, false⟩
        else ⟨s2, false⟩
  else ⟨s, false⟩

/-- part_001 lines 367-403. Reading `currentStory.pages.length` throws on a
null story. Inside the guard `currentPageIndex < pages.length` the script
stops narration if active, then: if the page element is found (`domFound`)
it only adds a CSS class and schedules the index increment in a 50 ms
callback; if not found, the fallback branch increments the index
synchronously. There is no `isAnimating`-style guard in this script. -/
def goToNextPage (domFound : Bool) (s : State) : JsResult State :=
  match s.currentStory with
  | none => ⟨s, true⟩
  | some st =>
      if s.currentPageIndex < (st.pages.length : Int) then
        let s1 := if s.isReadingAloud = true then stopReading s else s
        if domFound then
          ⟨{ s1 with pendingNextCommits := s1.pendingNextCommits + 1 }, false⟩
        else
          ⟨{ s1 with currentPageIndex := s1.currentPageIndex + 1 }, false⟩
      else ⟨s, false⟩

/-- Delivery of one scheduled 50 ms commit callback from `goToNextPage`
(part_001 lines 384-396): increments `currentPageIndex`, calls
`updateNavigationButtons` (throws on a null story), and schedules a
`readCurrentPage` 300 ms later if `isReadingAloud` is set at delivery
time. -/
def fireNextCommit (s : State) : JsResult State :=
  match s.pendingNextCommits with
  | 0 => ⟨s, false⟩
  | n + 1 =>
      let s1 := { s with pendingNextCommits := n,
                         currentPageIndex := s.currentPageIndex + 1 }
      match s1.currentStory with
      | none => ⟨s1, true⟩
      | some _ =>
          if s1.isReadingAloud = true then
            ⟨{ s1 with pendingReads := s1.pendingReads + 1 }, false⟩
          else ⟨s1, false⟩

/-- The cover introduction spoken on page 0 (part_001 line 518). -/
def coverGreeting (st : Story) : String :=
  "Hello there! Let me read you a story called " ++ st.title ++
    ". This story is perfect for children ages " ++ st.ageRange ++
    ". Let\x27s begin our adventure!"

/-- The `textToRead` computation of part_001 lines 514-525: the cover
greeting at index 0, `pages[currentPageIndex - 1].text` when that entry
exists, and the empty string otherwise. -/
def textFor (st : Story) (idx : Int) : String :=
  if idx = 0 then coverGreeting st
  else if idx - 1 < 0 then ""
  else
    match st.pages.get? (idx - 1).toNat with
    | some p => p.text
    | none => ""

/-- part_001 lines 507-601 (the function as declared in part_001). After the
`speechSynthesis` availability check it always calls
`speechSynthesis.cancel()` first, then computes `textToRead`; with a null
story both branches dereference `currentStory` and throw (after the cancel).
A nonempty text is wrapped in one utterance and passed to
`speechSynthesis.speak`, which enqueues it; an empty text speaks nothing. -/
def readCurrentPage (speechAvailable : Bool) (s : State) : JsResult State :=
  if speechAvailable = false then ⟨s, false⟩
  else
    let s1 := { s with speechQueue := [] }
    match s1.currentStory with
    | none => ⟨s1, true⟩
    | some st =>
        let t := textFor st s1.currentPageIndex
        if t = "" then ⟨s1, false⟩
        else ⟨{ s1 with speechQueue := s1.speechQueue ++ [⟨s1.currentPageIndex, t⟩] }, false⟩

/-- Delivery of one scheduled deferred `readCurrentPage` timer
(part_001 lines 360-362, 392-394, 428-430). -/
def fireRead (speechAvailable : Bool) (s : State) : JsResult State :=
  match s.pendingReads with
  | 0 => ⟨s, false⟩
  | n + 1 => readCurrentPage speechAvailable { s with pendingReads := n }

/-- Completion of the utterance at the head of the speech queue. Its `onend`
handler (part_001 lines 593-597) checks `isReadingAloud` and the
`auto-turn-pages` checkbox at completion time and, when both hold, schedules
the auto-advance callback 1000 ms later. -/
def utteranceEnds (autoTurnChecked : Bool) (s : State) : State :=
  match s.speechQueue with
  | [] => s
  | _ :: rest =>
      let s1 := { s with speechQueue := rest }
      if s1.isReadingAloud = true ∧ autoTurnChecked = true then
        { s1 with pendingAutoAdvances := s1.pendingAutoAdvances + 1 }
      else s1

/-- Every global binding the repository scripts create: the top-level
`const`, `let` and `function` declarations of part_001, the top-level class
of part_002 plus its `window.flipbookAPI` assignment, and the window
properties assigned by part_003. part_000 and the kid-friendly script run
entirely inside `DOMContentLoaded` closures and create no globals. -/
def globalBindings : List String :=
  ["storyForm", "storyViewer", "storyPromptInput", "pageCountInput",
   "pageCountValue", "generateBtn", "loadingIndicator", "backToFormBtn",
   "toggleReadAloudBtn", "readAloudText", "bookElement", "prevPageBtn",
   "nextPageBtn", "currentPageIndicator", "totalPagesIndicator",
   "errorMessage", "errorText", "closeError", "currentStory",
   "currentPageIndex", "isReadingAloud", "speechSynthesis", "speechUtterance",
   "availableVoices", "initSpeechSynthesisVoices", "createVoiceSelector",
   "initialize", "updatePageCountDisplay", "showLoading", "hideLoading",
   "showError", "hideError", "resetToForm", "showStoryViewer",
   "handleGenerateStory", "displayStory", "createPageElement",
   "updateNavigationButtons", "goToPreviousPage", "goToNextPage",
   "toggleReadAloud", "startReading", "stopReading", "playReadingStartSound",
   "showReadingIndicator", "hideReadingIndicator", "readCurrentPage",
   "createPlaceholderImage", "FlipbookApp", "flipbookAPI",
   "enhanceStoryText", "playMagicSound"]

/-- Delivery of one scheduled auto-advance callback. Its body is
`() => nextPage()` in part_001 line 595 and `() => window.nextPage()` in
part_003 line 256; no script declares a global named `nextPage` (the page
turn function is `goToNextPage`, and the flipbook exposes only
`window.flipbookAPI.nextPage`), so the call throws a ReferenceError and
changes nothing. -/
def fireAutoAdvance (s : State) : JsResult State :=
  match s.pendingAutoAdvances with
  | 0 => ⟨s, false⟩
  | n + 1 =>
      ⟨{ s with pendingAutoAdvances := n }, !(globalBindings.contains "nextPage")⟩

/-- part_001 lines 157-165: shows the banner with the message and schedules
a `hideError` 8000 ms later. -/
def showError (message : String) (s : State) : State :=
  { s with errorText := message, errorVisible := true,
           pendingErrorHides := s.pendingErrorHides + 1 }

/-- part_001 lines 167-169. -/
def hideError (s : State) : State :=
  { s with errorVisible := false }

/-- The auto-dismiss delay passed to `setTimeout` in `showError`
(part_001 line 164): 8000 ms. -/
def errorAutoDismissMs : Nat := 8000

/-- Delivery of one scheduled error auto-hide timer. -/
def fireErrorHide (s : State) : State :=
  match s.pendingErrorHides with
  | 0 => s
  | n + 1 => { hideError s with pendingErrorHides := n }

/-- part_001 lines 242-288: resets `currentPageIndex` to 0 and, only behind
the `story.pages && story.pages.length > 0` guard, reads
`story.pages[0].image_url` to set the cover image. The page-element rebuild,
indicator text and the `storyGenerated` event are derived UI or consumed by
`Flip.addStoryPages`. -/
def displayStory (st : Story) (s : State) : State :=
  let cover :=
    match st.pages.head? with
    | some p => some p.imageUrl
    | none => s.coverImageUrl
  { s with currentPageIndex := 0, coverImageUrl := cover }

/-- part_001 lines 195-239. The script trims the raw input first
(`storyPromptInput.value.trim()`); `prompt` here is that trimmed value, and
an empty one shows an error and never issues the request. Otherwise loading
UI is shown, and the `/generate` exchange either throws (network error,
non-2xx response, or bad JSON) - caught by the `catch` block, which only
calls `showError` with the message or, when the message is empty, the
fallback text - or yields a story, which is stored in `currentStory` and
passed to `displayStory`. The `finally` block hides the loading UI in both
cases. -/
def handleGenerateStory (prompt : String) (outcome : Except String Story)
    (s : State) : State :=
  if prompt = "" then showError "Please enter a story prompt" s
  else
    let s1 := { s with loading := true }
    let s2 :=
      match outcome with
      | Except.error msg =>
          showError
            (if msg = "" then "An error occurred while generating your story" else msg)
            s1
      | Except.ok st => displayStory st { s1 with currentStory := some st }
    { s2 with loading := false }

/-- part_001 lines 171-187: stops narration if active, then clears
`currentStory` and `currentPageIndex`. -/
def resetToForm (s : State) : State :=
  let s1 := if s.isReadingAloud = true then stopReading s else s
  { s1 with currentStory := none, currentPageIndex := 0 }

/-- The viewer state as initialised by part_001 lines 26-31. -/
def initialState : State :=
  { currentStory := none, currentPageIndex := 0, isReadingAloud := false,
    loading := false, errorVisible := false, errorText := "",
    pendingErrorHides := 0, pendingNextCommits := 0, pendingReads := 0,
    pendingAutoAdvances := 0, speechQueue := [], coverImageUrl := none }

/-- The viewer state right after a story has been generated and displayed. -/
def loaded (st : Story) : State :=
  displayStory st { initialState with currentStory := some st }

/-- A user-level navigation operation that is awaited to completion: the
request plus, for a found-element next request, the delivery of its 50 ms
commit before anything else happens. -/
inductive Op
  | next (domFound : Bool)
  | prev
deriving DecidableEq

/-- Run one settled operation. -/
def settle (s : State) (o : Op) : State :=
  match o with
  | Op.next d => (fireNextCommit (goToNextPage d s).state).state
  | Op.prev => (goToPreviousPage s).state

/-- Run a sequence of settled operations. -/
def runSettled (s : State) (ops : List Op) : State :=
  ops.foldl settle s

/-- Invariant of the viewer under settled operation sequences over a fixed
loaded story. -/
def settledInv (st : Story) (s : State) : Prop :=
  s.currentStory = some st ∧
  0 ≤ s.currentPageIndex ∧
  s.currentPageIndex ≤ (st.pages.length : Int) ∧
  s.pendingNextCommits = 0

/-- Modelled from source: part_001 declares `currentStory` with a top-level
`let`, which creates a global lexical binding but not a property of
`window`, so `window.currentStory` - the expression the part_003 override
reads - is `undefined`. -/
def windowCurrentStory : Option Story := none

/-- Modelled from source: part_001 declares `currentPageIndex` with a
top-level `let`, so `window.currentPageIndex` is `undefined`. -/
def windowCurrentPageIndex : Option Int := none

/-- The page-text lookup of the part_003 override (lines 183-186) over the
window-qualified index: with `window.currentPageIndex` undefined the
subtraction yields `NaN` and `pages[NaN]` is `undefined`, so the text stays
empty; with a number it mirrors `textFor`. -/
def overridePageText (st : Story) (winIdx : Option Int) : String :=
  match winIdx with
  | none => ""
  | some i =>
      if i - 1 < 0 then ""
      else
        match st.pages.get? (i - 1).toNat with
        | some p => p.text
        | none => ""

/-- part_003 lines 169-263: the replacement assigned to
`window.readCurrentPage`, which rebinds the global `readCurrentPage` that
part_001 calls. Same shape as the original - `speechSynthesis.cancel()`
first, then the text computation - but every state read is window-qualified
(`window.currentPageIndex`, `window.currentStory`): dereferencing an
undefined `window.currentStory` throws after the cancel. -/
def readCurrentPageOverride (winStory : Option Story) (winIdx : Option Int)
    (speechAvailable : Bool) (s : State) : JsResult State :=
  if speechAvailable = false then ⟨s, false⟩
  else
    let s1 := { s with speechQueue := [] }
    if winIdx = some 0 then
      match winStory with
      | none => ⟨s1, true⟩
      | some st =>
          ⟨{ s1 with speechQueue := [⟨0, coverGreeting st⟩] }, false⟩
    else
      match winStory with
      | none => ⟨s1, true⟩
      | some st =>
          let t := overridePageText st winIdx
          if t = "" then ⟨s1, false⟩
          else
            match winIdx with
            | some i => ⟨{ s1 with speechQueue := [⟨i, t⟩] }, false⟩
            | none => ⟨s1, false⟩

/-- The `readCurrentPage` that actually runs once part_003 has installed its
override: the override applied to the window bindings. -/
def effectiveReadCurrentPage (speechAvailable : Bool) (s : State) : JsResult State :=
  readCurrentPageOverride windowCurrentStory windowCurrentPageIndex speechAvailable s

/-- A one-page story, for concrete runs. -/
def storyOne : Story :=
  ⟨"A Brave Dragon", "4-8", [⟨"Once upon a time.", "img1"⟩]⟩

/-- A two-page story, for concrete runs. -/
def storyTwo : Story :=
  ⟨"A Brave Dragon", "4-8",
   [⟨"Page one text.", "img1"⟩, ⟨"Page two text.", "img2"⟩]⟩

/-- The loaded viewer after one next request whose 50 ms commit has not yet
fired: a transition is in flight. -/
def vInFlight : State :=
  (goToNextPage true (loaded storyOne)).state

/-- The viewer narrating the cover of the two-page story. -/
def readingCover : State :=
  (readCurrentPage true { loaded storyTwo with isReadingAloud := true }).state

/-- The viewer narrating page 1 of the two-page story. -/
def readingPageOne : State :=
  (readCurrentPage true
    { loaded storyTwo with currentPageIndex := 1, isReadingAloud := true }).state

end Viewer

namespace Flip

/-- One page record built by part_002 `addStoryPages`. -/
structure FPage where
  title : String
  text : String
  image : Option String
  pageNumber : Nat
  kind : String
deriving DecidableEq

/-- The component state part_002 `setState`s after `addStoryPages`. -/
structure FState where
  pages : List FPage
  currentPage : Nat
  totalPages : Nat
deriving DecidableEq

/-- part_002 lines 130-180. The cover push reads `story.pages[0].image_url`
unconditionally; on an empty `pages` array that access throws (`none`).
Otherwise a cover (pageNumber 1), one chapter per story page
(pageNumber i+2) and an end page are assembled, the state gets the new page
list with `currentPage` 0, and the widget is turned back to page 0. -/
def addStoryPages (story : Viewer.Story) : Option FState :=
  match story.pages with
  | [] => none
  | p0 :: _ =>
      let cover : FPage :=
        { title := story.title,
          text := "A magical story for ages " ++ story.ageRange,
          image := some p0.imageUrl, pageNumber := 1, kind := "cover" }
      let chapters : List FPage := story.pages.enum.map fun ip =>
        { title := "Chapter " ++ toString (ip.1 + 1), text := ip.2.text,
          image := some ip.2.imageUrl, pageNumber := ip.1 + 2, kind := "page" }
      let beforeEnd := cover :: chapters
      let endPage : FPage :=
        { title := "The End!",
          text := "Thank you for reading this magical story! Would you like to create another wonderful tale?",
          image := none, pageNumber := beforeEnd.length + 1, kind := "end" }
      let ps := beforeEnd ++ [endPage]
      some { pages := ps, currentPage := 0, totalPages := ps.length }

end Flip

/-! Helper lemmas: invariant preservation for the part_000 book run and the
part_001 settled-operation run. -/

lemma book_inv_goToNextPage (dom : Int → Bool) (s : Book.State) (h : Book.inv s) :
    Book.inv (Book.goToNextPage dom s).state := by
  obtain ⟨h0, h1, h2, h3, h4⟩ := h
  unfold Book.goToNextPage
  split_ifs with c1 c2
  · exact ⟨h0, h1, h2, h3, h4⟩
  · rcases not_or.mp c1 with ⟨ha, hb⟩
    have ha' : s.isAnimating = false := by
      cases hA : s.isAnimating
      · rfl
      · exact absurd hA ha
    have hp : s.pending = [] := h2 ha'
    simp only [not_le] at hb
    unfold Book.inv
    dsimp only
    refine ⟨h0, h1, by simp, by simp [hp], ?_⟩
    intro _
    omega
  · rcases not_or.mp c1 with ⟨ha, hb⟩
    unfold Book.inv
    dsimp only
    exact ⟨h0, h1, by simp, h3, h4⟩

lemma book_inv_goToPreviousPage (dom : Int → Bool) (s : Book.State) (h : Book.inv s) :
    Book.inv (Book.goToPreviousPage dom s).state := by
  obtain ⟨h0, h1, h2, h3, h4⟩ := h
  unfold Book.goToPreviousPage
  split_ifs with c1 c2
  · exact ⟨h0, h1, h2, h3, h4⟩
  · rcases not_or.mp c1 with ⟨ha, hb⟩
    have ha' : s.isAnimating = false := by
      cases hA : s.isAnimating
      · rfl
      · exact absurd hA ha
    have hp : s.pending = [] := h2 ha'
    simp only [not_le] at hb
    unfold Book.inv
    dsimp only
    refine ⟨by omega, by omega, by simp, by simp [hp], ?_⟩
    intro hmem
    rw [hp] at hmem
    simp at hmem
  · rcases not_or.mp c1 with ⟨ha, hb⟩
    simp only [not_le] at hb
    unfold Book.inv
    dsimp only
    refine ⟨by omega, by omega, by simp, h3, fun hm => by omega⟩

lemma book_inv_fireTimer (s : Book.State) (h : Book.inv s) :
    Book.inv (Book.fireTimer s) := by
  obtain ⟨h0, h1, h2, h3, h4⟩ := h
  unfold Book.fireTimer
  match hp : s.pending with
  | [] => exact ⟨h0, h1, h2, h3, h4⟩
  | Book.Turn.next :: rest =>
      have hlen : rest = [] := by
        rw [hp] at h3
        simpa using h3
      have hb : s.currentPage ≤ s.totalPages - 2 := h4 (by rw [hp]; simp)
      subst hlen
      unfold Book.inv
      dsimp only
      exact ⟨by omega, by omega, fun _ => rfl, by simp, by simp⟩
  | Book.Turn.prev :: rest =>
      have hlen : rest = [] := by
        rw [hp] at h3
        simpa using h3
      subst hlen
      unfold Book.inv
      dsimp only
      exact ⟨h0, h1, fun _ => rfl, by simp, by simp⟩

lemma book_inv_step (dom : Int → Bool) (s : Book.State) (e : Book.Ev)
    (h : Book.inv s) : Book.inv (Book.step dom s e) := by
  cases e with
  | reqNext => exact book_inv_goToNextPage dom s h
  | reqPrev => exact book_inv_goToPreviousPage dom s h
  | fire => exact book_inv_fireTimer s h

lemma book_inv_run (dom : Int → Bool) (evs : List Book.Ev) (s : Book.State)
    (h : Book.inv s) : Book.inv (Book.run dom s evs) := by
  induction evs generalizing s with
  | nil => simpa [Book.run]
  | cons e rest ih =>
      rw [Book.run, List.foldl_cons]
      exact ih _ (book_inv_step dom s e h)

lemma book_step_totalPages (dom : Int → Bool) (s : Book.State) (e : Book.Ev) :
    (Book.step dom s e).totalPages = s.totalPages := by
  cases e with
  | reqNext =>
      unfold Book.step Book.goToNextPage
      split_ifs <;> rfl
  | reqPrev =>
      unfold Book.step Book.goToPreviousPage
      split_ifs <;> rfl
  | fire =>
      show (Book.fireTimer s).totalPages = s.totalPages
      unfold Book.fireTimer
      match s.pending with
      | [] => rfl
      | Book.Turn.next :: _ => rfl
      | Book.Turn.prev :: _ => rfl

lemma book_run_totalPages (dom : Int → Bool) (evs : List Book.Ev) (s : Book.State) :
    (Book.run dom s evs).totalPages = s.totalPages := by
  induction evs generalizing s with
  | nil => rfl
  | cons e rest ih =>
      rw [Book.run, List.foldl_cons]
      rw [show List.foldl (Book.step dom) (Book.step dom s e) rest
            = Book.run dom (Book.step dom s e) rest from rfl]
      rw [ih]
      exact book_step_totalPages dom s e

lemma viewer_settledInv_settle (st : Viewer.Story) (s : Viewer.State)
    (o : Viewer.Op) (h : Viewer.settledInv st s) :
    Viewer.settledInv st (Viewer.settle s o) := by
  obtain ⟨hst, h0, h1, hp⟩ := h
  cases o with
  | next d =>
      show Viewer.settledInv st (Viewer.fireNextCommit (Viewer.goToNextPage d s).state).state
      unfold Viewer.goToNextPage
      rw [hst]
      dsimp only
      by_cases hidx : s.currentPageIndex < (st.pages.length : Int)
      · rw [if_pos hidx]
        cases hr : s.isReadingAloud <;> cases d <;>
          refine ⟨?_, ?_, ?_, ?_⟩ <;>
          simp [Viewer.stopReading, Viewer.fireNextCommit, hr, hst, hp] <;>
          omega
      · rw [if_neg hidx]
        dsimp only
        simp only [Viewer.fireNextCommit, hp]
        exact ⟨hst, h0, h1, hp⟩
  | prev =>
      show Viewer.settledInv st (Viewer.goToPreviousPage s).state
      unfold Viewer.goToPreviousPage
      by_cases hidx : 0 < s.currentPageIndex
      · rw [if_pos hidx]
        cases hr : s.isReadingAloud <;>
          refine ⟨?_, ?_, ?_, ?_⟩ <;>
          simp [Viewer.stopReading, hr, hst, hp] <;>
          omega
      · rw [if_neg hidx]
        exact ⟨hst, h0, h1, hp⟩

lemma viewer_settledInv_runSettled (st : Viewer.Story) (ops : List Viewer.Op)
    (s : Viewer.State) (h : Viewer.settledInv st s) :
    Viewer.settledInv st (Viewer.runSettled s ops) := by
  induction ops generalizing s with
  | nil => simpa [Viewer.runSettled]
  | cons o rest ih =>
      rw [Viewer.runSettled, List.foldl_cons]
      exact ih _ (viewer_settledInv_settle st s o h)

lemma viewer_settledInv_loaded (st : Viewer.Story) :
    Viewer.settledInv st (Viewer.loaded st) := by
  refine ⟨rfl, le_refl 0, ?_, rfl⟩
  exact Int.ofNat_nonneg st.pages.length

/-! Claim theorems. -/

/-- C1, counterexample. The claim asserts that any page-turn request issued
while a transition is in flight is dropped. In part_001 (which has no
`isAnimating`-style flag) this fails: from the loaded one-page story, after
one accepted `goToNextPage` whose 50 ms commit has not yet fired
(`vInFlight`, one pending commit), a second `goToNextPage` is accepted and
queues a second commit instead of being a no-op, and after both commits
deliver `currentPageIndex` has advanced by 2. -/
theorem c1_counterexample :
    0 < Viewer.vInFlight.pendingNextCommits
    ∧ (Viewer.goToNextPage true Viewer.vInFlight).state ≠ Viewer.vInFlight
    ∧ (Viewer.goToNextPage true Viewer.vInFlight).state.pendingNextCommits = 2
    ∧ (Viewer.fireNextCommit (Viewer.fireNextCommit
        ((Viewer.goToNextPage true Viewer.vInFlight).state)).state).state.currentPageIndex
        = Viewer.vInFlight.currentPageIndex + 2 := by
  decide

/-- C1, amended. In the part_000 DOM book, any `goToNextPage` or
`goToPreviousPage` call made while `isAnimating` is true is a complete
no-op (state returned unchanged, nothing thrown), so that renderer has at
most one animation in flight and drops input during an animation. The
part_001 viewer has no such flag: a `goToNextPage` whose guard passes always
queues one more deferred commit, so requests arriving during an in-flight
transition are queued there, not dropped. -/
theorem c1_mutual_exclusion :
    (∀ (dom : Int → Bool) (s : Book.State), s.isAnimating = true →
      Book.goToNextPage dom s = ⟨s, false⟩ ∧ Book.goToPreviousPage dom s = ⟨s, false⟩)
    ∧ (∀ (s : Viewer.State) (st : Viewer.Story), s.currentStory = some st →
      s.currentPageIndex < (st.pages.length : Int) →
      (Viewer.goToNextPage true s).state.pendingNextCommits = s.pendingNextCommits + 1) := by
  constructor
  · intro dom s h
    constructor
    · unfold Book.goToNextPage
      rw [if_pos (Or.inl h)]
    · unfold Book.goToPreviousPage
      rw [if_pos (Or.inl h)]
  · intro s st hst hidx
    unfold Viewer.goToNextPage
    rw [hst]
    dsimp only
    rw [if_pos hidx]
    cases hr : s.isReadingAloud <;> simp [hr, Viewer.stopReading]

/-- C1, witness for `c1_mutual_exclusion` at concrete inputs. -/
theorem c1_witness :
    Book.goToNextPage (fun _ => true) ⟨0, 3, true, []⟩ = ⟨⟨0, 3, true, []⟩, false⟩
    ∧ (Viewer.goToNextPage true (Viewer.loaded Viewer.storyOne)).state.pendingNextCommits
        = (Viewer.loaded Viewer.storyOne).pendingNextCommits + 1 :=
  ⟨(c1_mutual_exclusion.1 (fun _ => true) ⟨0, 3, true, []⟩ rfl).1,
   c1_mutual_exclusion.2 (Viewer.loaded Viewer.storyOne) Viewer.storyOne rfl (by decide)⟩

/-- C2, counterexample. The claim asserts the `currentIndex` update never
happens synchronously with the triggering input event. In part_000
`goToPreviousPage`, an accepted request decrements `currentPage` before the
600 ms timer is even scheduled: immediately after the call the index has
already changed from 1 to 0 while the commit callback is still pending. -/
theorem c2_counterexample :
    (Book.goToPreviousPage (fun _ => true) ⟨1, 3, false, []⟩).state.currentPage = 0
    ∧ (Book.goToPreviousPage (fun _ => true) ⟨1, 3, false, []⟩).state.pending
        = [Book.Turn.prev] := by
  decide

/-- C2, amended. In the part_000 DOM book: an accepted `goToNextPage` leaves
`currentPage` unchanged synchronously, schedules exactly one 600 ms commit,
and that commit - delivered exactly once, a second delivery is a no-op -
increments `currentPage` by exactly 1 and clears `isAnimating`. An accepted
`goToPreviousPage` decrements `currentPage` synchronously at request time;
its 600 ms commit, also delivered exactly once, only clears the visual
markers and `isAnimating`. In both cases, after the commit the index has
changed by exactly 1 in the requested direction and `isAnimating` is false,
and the animation duration constant is 600 ms. -/
theorem c2_deferred_commit :
    (∀ (dom : Int → Bool) (s : Book.State),
      s.isAnimating = false → s.pending = [] →
      s.currentPage < s.totalPages - 1 → dom s.currentPage = true →
      (Book.goToNextPage dom s).threw = false
      ∧ (Book.goToNextPage dom s).state.currentPage = s.currentPage
      ∧ (Book.goToNextPage dom s).state.isAnimating = true
      ∧ (Book.goToNextPage dom s).state.pending = [Book.Turn.next]
      ∧ Book.fireTimer (Book.goToNextPage dom s).state
          = { s with currentPage := s.currentPage + 1, isAnimating := false, pending := [] }
      ∧ Book.fireTimer (Book.fireTimer (Book.goToNextPage dom s).state)
          = Book.fireTimer (Book.goToNextPage dom s).state)
    ∧ (∀ (dom : Int → Bool) (s : Book.State),
      s.isAnimating = false → s.pending = [] →
      0 < s.currentPage → dom (s.currentPage - 1) = true →
      (Book.goToPreviousPage dom s).threw = false
      ∧ (Book.goToPreviousPage dom s).state.currentPage = s.currentPage - 1
      ∧ (Book.goToPreviousPage dom s).state.isAnimating = true
      ∧ (Book.goToPreviousPage dom s).state.pending = [Book.Turn.prev]
      ∧ Book.fireTimer (Book.goToPreviousPage dom s).state
          = { s with currentPage := s.currentPage - 1, isAnimating := false, pending := [] }
      ∧ Book.fireTimer (Book.fireTimer (Book.goToPreviousPage dom s).state)
          = Book.fireTimer (Book.goToPreviousPage dom s).state)
    ∧ Book.animationMs = 600 := by
  refine ⟨?_, ?_, rfl⟩
  · intro dom s h1 h2 h3 h4
    have hc : ¬(s.isAnimating = true ∨ s.totalPages - 1 ≤ s.currentPage) := by
      rintro (ha | hb)
      · simp [h1] at ha
      · omega
    unfold Book.goToNextPage
    rw [if_neg hc, if_pos h4]
    refine ⟨rfl, rfl, rfl, by simp [h2], ?_, ?_⟩
    · simp [Book.fireTimer, h2]
    · simp [Book.fireTimer, h2]
  · intro dom s h1 h2 h3 h4
    have hc : ¬(s.isAnimating = true ∨ s.currentPage ≤ 0) := by
      rintro (ha | hb)
      · simp [h1] at ha
      · omega
    unfold Book.goToPreviousPage
    rw [if_neg hc, if_pos h4]
    refine ⟨rfl, rfl, rfl, by simp [h2], ?_, ?_⟩
    · simp [Book.fireTimer, h2]
    · simp [Book.fireTimer, h2]

/-- C2, witness for `c2_deferred_commit` at a concrete state. -/
theorem c2_witness :
    (Book.goToNextPage (fun _ => true) ⟨0, 3, false, []⟩).state.currentPage = 0
    ∧ Book.fireTimer (Book.goToNextPage (fun _ => true) ⟨0, 3, false, []⟩).state
        = ⟨1, 3, false, []⟩
    ∧ (Book.goToPreviousPage (fun _ => true) ⟨2, 3, false, []⟩).state.currentPage = 1 :=
  ⟨(c2_deferred_commit.1 (fun _ => true) ⟨0, 3, false, []⟩ rfl rfl (by decide) rfl).2.1,
   (c2_deferred_commit.1 (fun _ => true) ⟨0, 3, false, []⟩ rfl rfl (by decide) rfl).2.2.2.2.1,
   (c2_deferred_commit.2.1 (fun _ => true) ⟨2, 3, false, []⟩ rfl rfl (by decide) rfl).2.1⟩

/-- C3, counterexample. The claim asserts every reachable state after a
story load satisfies `currentIndex ≤ totalCount` with `totalCount` the
story page count in the part_001 viewer. With a one-page story, issuing two
`goToNextPage` requests before either 50 ms commit fires queues two commits,
and after both deliver `currentPageIndex` is 2 while `pages.length` is 1:
the upper bound is exceeded. -/
theorem c3_counterexample :
    Viewer.storyOne.pages.length = 1
    ∧ (Viewer.fireNextCommit (Viewer.fireNextCommit
        ((Viewer.goToNextPage true ((Viewer.goToNextPage true
          (Viewer.loaded Viewer.storyOne)).state)).state)).state).state.currentPageIndex
        = 2 := by
  decide

/-- C3, amended. The bound `0 ≤ currentIndex ≤ totalCount` holds in the
part_000 book (with `totalCount = totalPages - 1`) for every reachable
state of every event sequence, including arbitrary interleavings of
requests and timer deliveries, and `totalPages` is fixed for the run. In
the part_001 viewer (with `totalCount = pages.length`) it holds provided
each navigation request is allowed to settle (its deferred commit delivered
before the next request); `displayStory` and `resetToForm` reset the index
to 0. Overlapping requests in the viewer can exceed the upper bound, as the
counterexample shows. -/
theorem c3_cursor_bounds :
    (∀ (dom : Int → Bool) (n : Int) (evs : List Book.Ev), 1 ≤ n →
      (Book.run dom (Book.init n) evs).totalPages = n
      ∧ 0 ≤ (Book.run dom (Book.init n) evs).currentPage
      ∧ (Book.run dom (Book.init n) evs).currentPage ≤ n - 1)
    ∧ (∀ (st : Viewer.Story) (ops : List Viewer.Op),
      0 ≤ (Viewer.runSettled (Viewer.loaded st) ops).currentPageIndex
      ∧ (Viewer.runSettled (Viewer.loaded st) ops).currentPageIndex
          ≤ (st.pages.length : Int))
    ∧ (∀ (st : Viewer.Story) (s : Viewer.State),
      (Viewer.displayStory st s).currentPageIndex = 0)
    ∧ (∀ s : Viewer.State, (Viewer.resetToForm s).currentPageIndex = 0) := by
  refine ⟨?_, ?_, ?_, ?_⟩
  · intro dom n evs hn
    have hinit : Book.inv (Book.init n) := by
      refine ⟨le_refl 0, ?_, fun _ => rfl, by simp [Book.init], ?_⟩
      · show (0 : Int) ≤ n - 1
        omega
      · intro hm
        simp [Book.init] at hm
    have hinv := book_inv_run dom evs _ hinit
    have htp := book_run_totalPages dom evs (Book.init n)
    obtain ⟨g0, g1, -, -, -⟩ := hinv
    rw [htp] at g1
    exact ⟨htp, g0, g1⟩
  · intro st ops
    have h := viewer_settledInv_runSettled st ops _ (viewer_settledInv_loaded st)
    exact ⟨h.2.1, h.2.2.1⟩
  · intro st s
    rfl
  · intro s
    rfl

/-- C3, witness for `c3_cursor_bounds` at concrete inputs. -/
theorem c3_witness :
    (1 : Int) ≤ 3
    ∧ (Book.run (fun _ => true) (Book.init 3) [Book.Ev.reqNext, Book.Ev.fire]).currentPage ≤ 3 - 1
    ∧ (Viewer.runSettled (Viewer.loaded Viewer.storyTwo)
        [Viewer.Op.next true]).currentPageIndex ≤ (Viewer.storyTwo.pages.length : Int) :=
  ⟨by decide,
   (c3_cursor_bounds.1 (fun _ => true) 3 [Book.Ev.reqNext, Book.Ev.fire] (by decide)).2.2,
   (c3_cursor_bounds.2.1 Viewer.storyTwo [Viewer.Op.next true]).2⟩

/-- C4 (confirmed). Boundary requests are silent no-ops in both renderers:
`goToNextPage` at the upper bound (`totalPages - 1` in the part_000 book,
`pages.length` in the part_001 viewer) and `goToPreviousPage` at index 0,
issued while idle, return the state completely unchanged, never enter a
transitioning state, never throw, and stay no-ops under arbitrarily many
repeated calls. -/
theorem c4_boundary_noops :
    (∀ (dom : Int → Bool) (s : Book.State), s.isAnimating = false →
      s.totalPages - 1 ≤ s.currentPage → Book.goToNextPage dom s = ⟨s, false⟩)
    ∧ (∀ (dom : Int → Bool) (s : Book.State), s.isAnimating = false →
      s.currentPage ≤ 0 → Book.goToPreviousPage dom s = ⟨s, false⟩)
    ∧ (∀ (dom : Int → Bool) (s : Book.State) (n : Nat), s.isAnimating = false →
      s.totalPages - 1 ≤ s.currentPage →
      (fun t => (Book.goToNextPage dom t).state)^[n] s = s)
    ∧ (∀ (s : Viewer.State) (st : Viewer.Story) (d : Bool), s.currentStory = some st →
      s.currentPageIndex = (st.pages.length : Int) → Viewer.goToNextPage d s = ⟨s, false⟩)
    ∧ (∀ s : Viewer.State, s.currentPageIndex ≤ 0 → Viewer.goToPreviousPage s = ⟨s, false⟩)
    ∧ (∀ (s : Viewer.State) (st : Viewer.Story) (d : Bool) (n : Nat),
      s.currentStory = some st → s.currentPageIndex = (st.pages.length : Int) →
      (fun t => (Viewer.goToNextPage d t).state)^[n] s = s) := by
  have hbookNext : ∀ (dom : Int → Bool) (s : Book.State), s.isAnimating = false →
      s.totalPages - 1 ≤ s.currentPage → Book.goToNextPage dom s = ⟨s, false⟩ := by
    intro dom s h1 h2
    unfold Book.goToNextPage
    rw [if_pos (Or.inr h2)]
  have hviewNext : ∀ (s : Viewer.State) (st : Viewer.Story) (d : Bool),
      s.currentStory = some st → s.currentPageIndex = (st.pages.length : Int) →
      Viewer.goToNextPage d s = ⟨s, false⟩ := by
    intro s st d hst hidx
    unfold Viewer.goToNextPage
    rw [hst]
    dsimp only
    rw [if_neg (by omega)]
  refine ⟨hbookNext, ?_, ?_, hviewNext, ?_, ?_⟩
  · intro dom s h1 h2
    unfold Book.goToPreviousPage
    rw [if_pos (Or.inr h2)]
  · intro dom s n h1 h2
    exact Function.iterate_fixed (congrArg JsResult.state (hbookNext dom s h1 h2)) n
  · intro s h
    unfold Viewer.goToPreviousPage
    rw [if_neg (by omega)]
  · intro s st d n hst hidx
    exact Function.iterate_fixed (congrArg JsResult.state (hviewNext s st d hst hidx)) n

/-- C4, witness for `c4_boundary_noops` at concrete boundary states. -/
theorem c4_witness :
    Book.goToNextPage (fun _ => true) ⟨2, 3, false, []⟩ = ⟨⟨2, 3, false, []⟩, false⟩
    ∧ Book.goToPreviousPage (fun _ => true) ⟨0, 3, false, []⟩ = ⟨⟨0, 3, false, []⟩, false⟩
    ∧ Viewer.goToNextPage true
        { Viewer.loaded Viewer.storyOne with currentPageIndex := 1 }
        = ⟨{ Viewer.loaded Viewer.storyOne with currentPageIndex := 1 }, false⟩
    ∧ Viewer.goToPreviousPage (Viewer.loaded Viewer.storyOne)
        = ⟨Viewer.loaded Viewer.storyOne, false⟩
    ∧ (fun t => (Book.goToNextPage (fun _ => true) t).state)^[5] ⟨2, 3, false, []⟩
        = ⟨2, 3, false, []⟩ :=
  ⟨c4_boundary_noops.1 (fun _ => true) ⟨2, 3, false, []⟩ rfl (by decide),
   c4_boundary_noops.2.1 (fun _ => true) ⟨0, 3, false, []⟩ rfl (by decide),
   c4_boundary_noops.2.2.2.1 _ Viewer.storyOne true rfl (by decide),
   c4_boundary_noops.2.2.2.2.1 (Viewer.loaded Viewer.storyOne) (by decide),
   c4_boundary_noops.2.2.1 (fun _ => true) ⟨2, 3, false, []⟩ 5 rfl (by decide)⟩

/-- C5 (code bug). On natural completion of the cover narration of a loaded
two-page story, with narration active and the auto-turn checkbox checked,
the `onend` handler does schedule one auto-advance callback - but that
callback calls `nextPage()` (part_001 line 595; `window.nextPage()` in the
part_003 override, line 256), and no script in the repository creates a
global binding named `nextPage`, so the callback throws a ReferenceError and
no forward page-turn request is ever issued. The stale-callback half of the
claim holds vacuously: after `stopReading` the speech queue is empty and
`isReadingAloud` is false, so no auto-advance is ever scheduled. -/
theorem c5_auto_advance_never_fires :
    Viewer.globalBindings.contains "nextPage" = false
    ∧ (Viewer.utteranceEnds true Viewer.readingCover).pendingAutoAdvances = 1
    ∧ (Viewer.fireAutoAdvance (Viewer.utteranceEnds true Viewer.readingCover)).threw = true
    ∧ (Viewer.fireAutoAdvance
        (Viewer.utteranceEnds true Viewer.readingCover)).state.currentPageIndex = 0
    ∧ (Viewer.utteranceEnds true (Viewer.stopReading Viewer.readingCover)).pendingAutoAdvances
        = 0 := by
  decide

/-- C6 (code bug). Navigating while narration is active never restarts
narration for the new page: both navigation handlers call `stopReading`
first, which sets `isReadingAloud` to false, so the later
`if (isReadingAloud)` restart checks (part_001 lines 358 and 390) can never
pass. Concretely, from the viewer narrating page 1 of the two-page story:
after `goToPreviousPage`, and likewise after `goToNextPage` plus its
deferred commit, the speech queue is empty, `isReadingAloud` is false and no
deferred `readCurrentPage` was scheduled (`pendingReads = 0`). -/
theorem c6_narration_never_restarts :
    Viewer.readingPageOne.isReadingAloud = true
    ∧ Viewer.readingPageOne.speechQueue.length = 1
    ∧ (Viewer.goToPreviousPage Viewer.readingPageOne).state.isReadingAloud = false
    ∧ (Viewer.goToPreviousPage Viewer.readingPageOne).state.pendingReads = 0
    ∧ (Viewer.goToPreviousPage Viewer.readingPageOne).state.speechQueue = []
    ∧ (Viewer.goToPreviousPage Viewer.readingPageOne).state.currentPageIndex = 0
    ∧ (Viewer.fireNextCommit
        (Viewer.goToNextPage true Viewer.readingPageOne).state).state.isReadingAloud = false
    ∧ (Viewer.fireNextCommit
        (Viewer.goToNextPage true Viewer.readingPageOne).state).state.pendingReads = 0
    ∧ (Viewer.fireNextCommit
        (Viewer.goToNextPage true Viewer.readingPageOne).state).state.currentPageIndex = 2 := by
  decide

/-- C7, counterexample. The claim asserts that starting narration while an
utterance is speaking yields exactly one active utterance for the new page.
The `readCurrentPage` that actually runs is the part_003 override (it
replaces the global binding that part_001 calls), and it reads
`window.currentStory`, which is undefined because part_001 declares its
state with a top-level `let`: from the state narrating page 1, the
effective call cancels the in-flight utterance and then throws, leaving
zero queued utterances rather than exactly one. -/
theorem c7_counterexample :
    Viewer.readingPageOne.speechQueue = [⟨1, "Page one text."⟩]
    ∧ (Viewer.effectiveReadCurrentPage true Viewer.readingPageOne).state.speechQueue = []
    ∧ (Viewer.effectiveReadCurrentPage true Viewer.readingPageOne).threw = true := by
  decide

/-- C7, amended. Every start of narration cancels any in-flight utterance
before speaking, so at most one utterance is ever queued - never two
overlapping ones. The part_001 `readCurrentPage` then yields exactly one
utterance for the current page whenever that page has text; the part_003
override, which replaces it at runtime, also cancels first but then
dereferences the undefined `window.currentStory` and throws, always leaving
an empty queue. -/
theorem c7_at_most_one_utterance :
    (∀ (s : Viewer.State) (st : Viewer.Story), s.currentStory = some st →
      (Viewer.readCurrentPage true s).state.speechQueue.length ≤ 1
      ∧ (Viewer.textFor st s.currentPageIndex ≠ "" →
          (Viewer.readCurrentPage true s).state.speechQueue
            = [⟨s.currentPageIndex, Viewer.textFor st s.currentPageIndex⟩]))
    ∧ (∀ s : Viewer.State,
      (Viewer.effectiveReadCurrentPage true s).state.speechQueue = []) := by
  constructor
  · intro s st hst
    unfold Viewer.readCurrentPage
    rw [if_neg (by simp)]
    dsimp only
    rw [hst]
    dsimp only
    by_cases ht : Viewer.textFor st s.currentPageIndex = ""
    · rw [if_pos ht]
      exact ⟨by simp, fun hcontra => absurd ht hcontra⟩
    · rw [if_neg ht]
      exact ⟨by simp, fun _ => rfl⟩
  · intro s
    unfold Viewer.effectiveReadCurrentPage Viewer.readCurrentPageOverride
      Viewer.windowCurrentStory Viewer.windowCurrentPageIndex
    rw [if_neg (by simp), if_neg (by simp)]

/-- C7, witness for `c7_at_most_one_utterance`: starting narration of page 1
of the two-page story while an older utterance is still queued yields
exactly the one new utterance. -/
theorem c7_witness :
    (Viewer.readCurrentPage true
        { Viewer.loaded Viewer.storyTwo with
          currentPageIndex := 1, speechQueue := [⟨0, "old"⟩] }).state.speechQueue
      = [⟨1, Viewer.textFor Viewer.storyTwo 1⟩] :=
  (c7_at_most_one_utterance.1 _ Viewer.storyTwo rfl).2 (by decide)

/-- C8 (confirmed). When the `/generate` exchange fails (the fetch throws or
the response is non-2xx, both surfacing as the `error` outcome), the handler
leaves `currentStory` and `currentPageIndex` exactly as they were, shows the
error banner with the message, schedules one auto-hide whose delay constant
is 8000 ms, and delivering that auto-hide dismisses the banner. -/
theorem c8_generation_failure_atomic :
    ∀ (s : Viewer.State) (prompt msg : String), prompt ≠ "" →
      (Viewer.handleGenerateStory prompt (Except.error msg) s).currentStory = s.currentStory
      ∧ (Viewer.handleGenerateStory prompt (Except.error msg) s).currentPageIndex
          = s.currentPageIndex
      ∧ (Viewer.handleGenerateStory prompt (Except.error msg) s).errorVisible = true
      ∧ (Viewer.handleGenerateStory prompt (Except.error msg) s).pendingErrorHides
          = s.pendingErrorHides + 1
      ∧ Viewer.errorAutoDismissMs = 8000
      ∧ (Viewer.fireErrorHide
          (Viewer.handleGenerateStory prompt (Except.error msg) s)).errorVisible = false := by
  intro s prompt msg hp
  unfold Viewer.handleGenerateStory
  rw [if_neg hp]
  by_cases hm : msg = "" <;>
    refine ⟨?_, ?_, ?_, ?_, rfl, ?_⟩ <;>
    simp [hm, Viewer.showError, Viewer.fireErrorHide, Viewer.hideError]

/-- C8, witness for `c8_generation_failure_atomic`: a failed generation over
a previously loaded story leaves the story and index untouched. -/
theorem c8_witness :
    (Viewer.handleGenerateStory "dragon" (Except.error "boom")
        (Viewer.loaded Viewer.storyTwo)).currentStory
      = (Viewer.loaded Viewer.storyTwo).currentStory
    ∧ (Viewer.handleGenerateStory "dragon" (Except.error "boom")
        (Viewer.loaded Viewer.storyTwo)).currentPageIndex
      = (Viewer.loaded Viewer.storyTwo).currentPageIndex
    ∧ (Viewer.handleGenerateStory "dragon" (Except.error "boom")
        (Viewer.loaded Viewer.storyTwo)).errorVisible = true :=
  ⟨(c8_generation_failure_atomic (Viewer.loaded Viewer.storyTwo) "dragon" "boom"
      (by decide)).1,
   (c8_generation_failure_atomic (Viewer.loaded Viewer.storyTwo) "dragon" "boom"
      (by decide)).2.1,
   (c8_generation_failure_atomic (Viewer.loaded Viewer.storyTwo) "dragon" "boom"
      (by decide)).2.2.1⟩

/-- C9, counterexample. The claim asserts no core operation crashes on a
missing page element. In part_000 `goToPreviousPage`, when the page element
for the decremented index is not found, `pageToUnflip.classList.add` throws
a TypeError - after `isAnimating` was set and `currentPage` decremented, so
the book is left stuck with `isAnimating = true` and no timer pending. -/
theorem c9_counterexample :
    (Book.goToPreviousPage (fun _ => false) ⟨1, 3, false, []⟩).threw = true
    ∧ (Book.goToPreviousPage (fun _ => false) ⟨1, 3, false, []⟩).state
        = ⟨0, 3, true, []⟩ := by
  decide

/-- C9, amended. The non-fatal fallback exists only in the part_001 viewer:
its `goToNextPage` with a missing page element advances the logical index
synchronously without throwing, and its `goToPreviousPage` null-checks the
element, never throwing while a story is loaded. In the part_000 book a
missing page element makes both handlers throw after `isAnimating` was set
(and, for previous, after the index was decremented), freezing further
navigation rather than falling back. -/
theorem c9_missing_dom :
    (∀ (s : Viewer.State) (st : Viewer.Story), s.currentStory = some st →
      s.currentPageIndex < (st.pages.length : Int) →
      (Viewer.goToNextPage false s).threw = false
      ∧ (Viewer.goToNextPage false s).state.currentPageIndex = s.currentPageIndex + 1)
    ∧ (∀ (s : Viewer.State) (st : Viewer.Story), s.currentStory = some st →
      (Viewer.goToPreviousPage s).threw = false)
    ∧ (∀ (dom : Int → Bool) (s : Book.State),
      s.isAnimating = false → 0 < s.currentPage → dom (s.currentPage - 1) = false →
      (Book.goToPreviousPage dom s).threw = true
      ∧ (Book.goToPreviousPage dom s).state.isAnimating = true
      ∧ (Book.goToPreviousPage dom s).state.currentPage = s.currentPage - 1)
    ∧ (∀ (dom : Int → Bool) (s : Book.State),
      s.isAnimating = false → s.currentPage < s.totalPages - 1 → dom s.currentPage = false →
      (Book.goToNextPage dom s).threw = true
      ∧ (Book.goToNextPage dom s).state.currentPage = s.currentPage) := by
  refine ⟨?_, ?_, ?_, ?_⟩
  · intro s st hst hidx
    unfold Viewer.goToNextPage
    rw [hst]
    dsimp only
    rw [if_pos hidx]
    cases hr : s.isReadingAloud <;> simp [hr, Viewer.stopReading]
  · intro s st hst
    unfold Viewer.goToPreviousPage
    by_cases hidx : 0 < s.currentPageIndex
    · rw [if_pos hidx]
      cases hr : s.isReadingAloud <;>
        simp [hr, Viewer.stopReading, hst]
    · rw [if_neg hidx]
  · intro dom s h1 h2 h3
    have hc : ¬(s.isAnimating = true ∨ s.currentPage ≤ 0) := by
      rintro (ha | hb)
      · simp [h1] at ha
      · omega
    unfold Book.goToPreviousPage
    rw [if_neg hc, if_neg (by simp [h3])]
    exact ⟨rfl, rfl, rfl⟩
  · intro dom s h1 h2 h3
    have hc : ¬(s.isAnimating = true ∨ s.totalPages - 1 ≤ s.currentPage) := by
      rintro (ha | hb)
      · simp [h1] at ha
      · omega
    unfold Book.goToNextPage
    rw [if_neg hc, if_neg (by simp [h3])]
    exact ⟨rfl, rfl⟩

/-- C9, witness for `c9_missing_dom` at concrete states. -/
theorem c9_witness :
    (Viewer.goToNextPage false (Viewer.loaded Viewer.storyOne)).threw = false
    ∧ (Viewer.goToNextPage false (Viewer.loaded Viewer.storyOne)).state.currentPageIndex
        = (Viewer.loaded Viewer.storyOne).currentPageIndex + 1
    ∧ (Viewer.goToPreviousPage (Viewer.loaded Viewer.storyOne)).threw = false
    ∧ (Book.goToPreviousPage (fun _ => false) ⟨2, 3, false, []⟩).threw = true
    ∧ (Book.goToNextPage (fun _ => false) ⟨0, 3, false, []⟩).threw = true :=
  ⟨(c9_missing_dom.1 _ Viewer.storyOne rfl (by decide)).1,
   (c9_missing_dom.1 _ Viewer.storyOne rfl (by decide)).2,
   c9_missing_dom.2.1 _ Viewer.storyOne rfl,
   (c9_missing_dom.2.2.1 (fun _ => false) ⟨2, 3, false, []⟩ rfl (by decide) rfl).1,
   (c9_missing_dom.2.2.2 (fun _ => false) ⟨0, 3, false, []⟩ rfl (by decide) rfl).1⟩

/-- C10 (confirmed). The book-population operations require a nonempty page
array: part_000 `populateBook` and part_002 `addStoryPages` succeed exactly
when `pages` is nonempty (both read the first page unconditionally to build
the cover and throw on an empty array), while part_001 `displayStory` guards
its cover access: on an empty-page story it completes normally, resets the
index and leaves the cover untouched, and on a nonempty story it sets the
cover from the first page. -/
theorem c10_nonempty_story_precondition :
    (∀ d : Book.SData, (Book.populateBook d).isSome = !d.pages.isEmpty)
    ∧ (∀ st : Viewer.Story, (Flip.addStoryPages st).isSome = !st.pages.isEmpty)
    ∧ (∀ (s : Viewer.State) (t a : String),
      (Viewer.displayStory ⟨t, a, []⟩ s).coverImageUrl = s.coverImageUrl
      ∧ (Viewer.displayStory ⟨t, a, []⟩ s).currentPageIndex = 0)
    ∧ (∀ (s : Viewer.State) (st : Viewer.Story) (p : Viewer.Page)
        (rest : List Viewer.Page), st.pages = p :: rest →
      (Viewer.displayStory st s).coverImageUrl = some p.imageUrl) := by
  refine ⟨?_, ?_, ?_, ?_⟩
  · rintro ⟨t, a, pages⟩
    cases pages <;> simp [Book.populateBook]
  · rintro ⟨t, a, pages⟩
    cases pages <;> simp [Flip.addStoryPages]
  · intro s t a
    exact ⟨rfl, rfl⟩
  · intro s st p rest hp
    unfold Viewer.displayStory
    rw [hp]
    rfl

/-- C10, witness for `c10_nonempty_story_precondition`: displaying the
two-page story sets the cover to the first page image. -/
theorem c10_witness :
    (Viewer.displayStory Viewer.storyTwo Viewer.initialState).coverImageUrl
      = some "img1" :=
  c10_nonempty_story_precondition.2.2.2 Viewer.initialState Viewer.storyTwo
    ⟨"Page one text.", "img1"⟩ [⟨"Page two text.", "img2"⟩] rfl
